import Mathlib

/-!
Shallow embedding of the task scheduler and per-task state machines of
`core_agent.py` (classes `AgentContext`, `BootTask`, `SaveTask`, `ArenaTask`,
`CoreAgent`) together with the screen classifiers of `console_patterns.py`.

Strings are modelled as `List Char` wrapped in `String`; the regex
classifiers are compiled by hand into decidable predicates that follow the
semantics of the Python patterns on the snapshot texts the program feeds
them (ASCII case folding, `\s` as ASCII whitespace).
-/

namespace Warsim

/-- ASCII lower-casing of a character, as `str.lower()` acts on ASCII text. -/
def toLowerCh (c : Char) : Char :=
  if 'A' ≤ c ∧ c ≤ 'Z' then Char.ofNat (c.toNat + 32) else c

/-- Lower-case every character of a list. -/
def lowerL (s : List Char) : List Char := s.map toLowerCh

/-- Python `\s` on the ASCII range: space, tab, newline, carriage return,
vertical tab, form feed. -/
def isWs (c : Char) : Bool :=
  c = ' ' || c = '\t' || c = '\n' || c = '\r' ||
  c = Char.ofNat 11 || c = Char.ofNat 12

/-- `isPref p s` holds when `p` is a prefix of `s`. -/
def isPref : List Char → List Char → Bool
  | [], _ => true
  | _ :: _, [] => false
  | p :: ps, c :: cs => decide (p = c) && isPref ps cs

/-- `containsL p s`: `p` occurs as a contiguous substring of `s`. -/
def containsL (p : List Char) : List Char → Bool
  | [] => isPref p []
  | c :: cs => isPref p (c :: cs) || containsL p cs

/-- Ordered double containment: `p` occurs, and `q` occurs after the end of
that occurrence of `p`.  This is `re.search(p + ".*?" + q, s, re.S)`. -/
def ordered2 (p q : List Char) : List Char → Bool
  | [] => isPref p [] && containsL q []
  | c :: cs =>
    if isPref p (c :: cs) then containsL q ((c :: cs).drop p.length)
    else ordered2 p q cs

/-- Case-insensitive containment of `pat` in `s` (`re.I` on ASCII). -/
def containsCI (pat s : String) : Bool :=
  containsL (lowerL pat.data) (lowerL s.data)

/-- Case-sensitive containment of `pat` in `s`. -/
def containsS (pat s : String) : Bool := containsL pat.data s.data

/-- `MAIN_MENU_RE = re.compile(r"Welcome to Warsim.*?1\) Start a New Game", re.S)`
as a search predicate. -/
def mainMenu (s : String) : Bool :=
  ordered2 ("Welcome to Warsim").data ("1) Start a New Game").data s.data

/-- `LOAD_MENU_RE = re.compile(r"Savegames.*enter the name of the save file", re.I | re.S)`
as a search predicate. -/
def loadMenu (s : String) : Bool :=
  ordered2 (lowerL ("Savegames").data)
    (lowerL ("enter the name of the save file").data) (lowerL s.data)

/-- `PRESS_ANY_KEY_RE = re.compile(r"Press any key to continue", re.I)`. -/
def pressAnyKey (s : String) : Bool := containsCI ("Press any key to continue") s

/-- `KINGDOM_MENU_RE = re.compile(r"KINGDOM MENU", re.I)`. -/
def kingdomMenu (s : String) : Bool := containsCI ("KINGDOM MENU") s

/-- `AUTORECRUIT_SETUP_PROMPT_RE = re.compile(r"automate the automation for me!", re.I | re.S)`. -/
def autorecruitSetup (s : String) : Bool :=
  containsCI ("automate the automation for me!") s

/-- `AUTORECRUIT_ALREADY_ON_RE = re.compile(r"already recruiting automatically", re.I | re.S)`. -/
def autorecruitOn (s : String) : Bool :=
  containsCI ("already recruiting automatically") s

/-- Longest whitespace run at the head of a list, with the rest. -/
def spanWs : List Char → List Char × List Char
  | [] => ([], [])
  | c :: cs =>
    if isWs c then
      let r := spanWs cs
      (c :: r.1, r.2)
    else ([], c :: cs)

/-- Longest non-whitespace run at the head of a list, with the rest. -/
def spanNonWs : List Char → List Char × List Char
  | [] => ([], [])
  | c :: cs =>
    if isWs c then ([], c :: cs)
    else
      let r := spanNonWs cs
      (c :: r.1, r.2)

/-- `re.search(ARENA_FIGHT_START_RE, s)` where
`ARENA_FIGHT_START_RE = re.compile(r"^\s+\S+\s+vs\.\s+\S+", re.I)`.
Without `re.M` the `^` anchors the match at position 0, and the mandatory
whitespace and non-whitespace runs between the anchored pieces make the
backtracking search deterministic: maximal whitespace run, maximal
non-whitespace token, maximal whitespace run, the literal `vs.`
(case-insensitively), another whitespace run, then at least one
non-whitespace character. -/
def arenaFightStart (s : String) : Bool :=
  let p1 := spanWs s.data
  if p1.1.isEmpty then false
  else
    let p2 := spanNonWs p1.2
    if p2.1.isEmpty then false
    else
      let p3 := spanWs p2.2
      if p3.1.isEmpty then false
      else
        match p3.2 with
        | v :: s2 :: d :: rest =>
          if toLowerCh v = 'v' ∧ toLowerCh s2 = 's' ∧ d = '.' then
            let p4 := spanWs rest
            !p4.1.isEmpty && !p4.2.isEmpty
          else false
        | _ => false

/-- `txt.split('\\n', 1)[0]` from `ArenaTask.feed`: the portion of the text
before the first occurrence of the two-character sequence backslash `n`
(note: the Python source escapes the backslash, so this is *not* a split on
the newline character). -/
def splitBN : List Char → List Char
  | [] => []
  | '\\' :: 'n' :: _ => []
  | c :: cs => c :: splitBN cs

/-- The claim side notion of "first line": the text before the first real
newline character of the snapshot. -/
def firstLine : List Char → List Char
  | [] => []
  | '\n' :: _ => []
  | c :: cs => c :: firstLine cs

/-- `TaskState` from `core_agent.py`. -/
inductive TaskState
  | ACTIVE
  | DONE
  | WAITING
deriving DecidableEq

/-- `BootState` from `core_agent.py`. -/
inductive BootState
  | START
  | LOAD_MENU
  | HANDLE_LOAD_EXIT_ERROR
  | WAIT_FOR_MAIN_MENU_AFTER_ERROR
  | ORIGIN
  | CAPTURE_CONDITIONS
  | SKIP_CEREMONY
  | SKIP_CROLL
  | SKIP_WAIT
  | READY
  | CHECK_AUTORECRUIT
deriving DecidableEq

/-- `SaveState` from `core_agent.py`. -/
inductive SaveState
  | WAIT
  | EXTRAS
  | NAME
  | CONFIRM
deriving DecidableEq

/-- `ArenaState` from `core_agent.py`. -/
inductive ArenaState
  | WAITING_FOR_FIGHT
  | FIGHTING
  | FIGHT_OVER
deriving DecidableEq

/-- `AgentContext` from `core_agent.py` (the Session Context). -/
structure AgentContext where
  save_name : String
  loaded_save : Bool
  in_kingdom_menu : Bool
  needs_save : Bool
  in_arena_fight : Bool
  intro_origin_text : String
  intro_conditions_text : String
deriving DecidableEq

/-- A fresh `AgentContext(save_name)` as built by the constructor. -/
def AgentContext.fresh (name : String) : AgentContext :=
  ⟨name, false, false, false, false, "", ""⟩

/-- The event descriptions passed to `MemoryManager.add_event` by the agent;
one constructor per `add_event` call site, carrying the dynamic part. -/
inductive MemEvent
  | quickStart
  | autorecruitEnabledNew
  | autorecruitEnabledLoaded
  | autorecruitVerifiedOn
  | gameSaved (name : String)
deriving DecidableEq

/-- The slice of `MemoryManager` the agent touches: the `request_save` flag
and the ordered list of events recorded through `add_event`. -/
structure MemoryManager where
  request_save : Bool
  events : List MemEvent
deriving DecidableEq

/-- Commands emitted to the input sink: `_send_number`, `_send_text`
(and the direct `send_text` call in `_h_load_menu`), `_send_key`. -/
inductive Cmd
  | num (n : Nat)
  | text (s : String) (enter : Bool)
  | key (c : Char)
deriving DecidableEq

/-- Log lines pushed to `gen_q`; one constructor per `gen_q.put` call site
inside `feed`/`reset`, carrying the dynamic part. -/
inductive LogEvent
  | foundSave (name : String)
  | saveNotFound (name : String)
  | capturingOrigin
  | capturingConditions
  | checkingAutorecruit
  | enablingAutorecruit
  | requestingInitialSave
  | bootCompleteNew
  | autorecruitOff
  | autorecruitAlreadyOn
  | warnUnknownAutorecruit
  | bootCompleteLoad
  | saveReactivated
  | saveInitiating
  | saveComplete
  | arenaFightDetected
  | arenaFightFinished
  | warnArenaUnexpectedMenu
  | arenaReset
  | enteredKingdomMenu
  | exitedKingdomMenu
deriving DecidableEq

/-- `BootTask` mutable state: run-state `self.state` and FSM state `self.s`. -/
structure BootTask where
  state : TaskState
  s : BootState
deriving DecidableEq

/-- `SaveTask` mutable state. -/
structure SaveTask where
  state : TaskState
  s : SaveState
deriving DecidableEq

/-- `ArenaTask` mutable state. -/
structure ArenaTask where
  state : TaskState
  s : ArenaState
deriving DecidableEq

/-- Result of one `feed` call on a task with state type `τ`: the new task
state, the new context, the new memory, and the commands and log lines
emitted during the call, in order. -/
structure Step (τ : Type) where
  t : τ
  ctx : AgentContext
  mem : MemoryManager
  cmds : List Cmd
  logs : List LogEvent
deriving DecidableEq

/-- `MemoryManager.add_event`. -/
def MemoryManager.addEvent (m : MemoryManager) (e : MemEvent) : MemoryManager :=
  { m with events := m.events ++ [e] }

/-- `BootTask.feed` from `core_agent.py` lines 127-257: dispatch on the boot
FSM state, one handler per state. -/
def bootFeed (b : BootTask) (ctx : AgentContext) (mem : MemoryManager)
    (txt : String) : Step BootTask :=
  if b.state = TaskState.DONE then ⟨b, ctx, mem, [], []⟩
  else
    match b.s with
    | BootState.START =>
      if mainMenu txt then
        ⟨{ b with s := BootState.LOAD_MENU }, ctx, mem, [Cmd.num 2], []⟩
      else ⟨b, ctx, mem, [], []⟩
    | BootState.LOAD_MENU =>
      if loadMenu txt then
        if containsCI ctx.save_name txt then
          ⟨{ b with s := BootState.READY }, { ctx with loaded_save := true },
            mem, [Cmd.text ctx.save_name true], [LogEvent.foundSave ctx.save_name]⟩
        else
          ⟨{ b with s := BootState.HANDLE_LOAD_EXIT_ERROR },
            { ctx with loaded_save := false },
            mem, [Cmd.text ("x") true], [LogEvent.saveNotFound ctx.save_name]⟩
      else ⟨b, ctx, mem, [], []⟩
    | BootState.HANDLE_LOAD_EXIT_ERROR =>
      if pressAnyKey txt then
        ⟨{ b with s := BootState.WAIT_FOR_MAIN_MENU_AFTER_ERROR }, ctx, mem,
          [Cmd.key ' '], []⟩
      else ⟨b, ctx, mem, [], []⟩
    | BootState.WAIT_FOR_MAIN_MENU_AFTER_ERROR =>
      if mainMenu txt then
        ⟨{ b with s := BootState.ORIGIN }, ctx,
          mem.addEvent MemEvent.quickStart, [Cmd.num 3], []⟩
      else ⟨b, ctx, mem, [], []⟩
    | BootState.ORIGIN =>
      if pressAnyKey txt then
        ⟨{ b with s := BootState.CAPTURE_CONDITIONS },
          { ctx with intro_origin_text := txt }, mem,
          [Cmd.key ' '], [LogEvent.capturingOrigin]⟩
      else ⟨b, ctx, mem, [], []⟩
    | BootState.CAPTURE_CONDITIONS =>
      if pressAnyKey txt then
        ⟨{ b with s := BootState.SKIP_CEREMONY },
          { ctx with intro_conditions_text := txt }, mem,
          [Cmd.key ' '], [LogEvent.capturingConditions]⟩
      else ⟨b, ctx, mem, [], []⟩
    | BootState.SKIP_CEREMONY =>
      if containsL ("crowning ceremony").data (lowerL txt.data) then
        ⟨{ b with s := BootState.SKIP_CROLL }, ctx, mem, [Cmd.num 2], []⟩
      else ⟨b, ctx, mem, [], []⟩
    | BootState.SKIP_CROLL =>
      if containsL ("old croll").data (lowerL txt.data) then
        ⟨{ b with s := BootState.SKIP_WAIT }, ctx, mem, [Cmd.num 2], []⟩
      else ⟨b, ctx, mem, [], []⟩
    | BootState.SKIP_WAIT =>
      if pressAnyKey txt then
        ⟨{ b with s := BootState.READY }, ctx, mem, [Cmd.key ' '], []⟩
      else ⟨b, ctx, mem, [], []⟩
    | BootState.READY =>
      if kingdomMenu txt then
        if ctx.loaded_save = false then
          ⟨{ b with state := TaskState.DONE },
            { ctx with in_kingdom_menu := true, needs_save := true },
            mem.addEvent MemEvent.autorecruitEnabledNew,
            [Cmd.num 1, Cmd.num 7, Cmd.num 1, Cmd.num 0, Cmd.num 0],
            [LogEvent.enablingAutorecruit, LogEvent.requestingInitialSave,
              LogEvent.bootCompleteNew]⟩
        else
          ⟨{ b with s := BootState.CHECK_AUTORECRUIT }, ctx, mem,
            [Cmd.num 1, Cmd.num 7], [LogEvent.checkingAutorecruit]⟩
      else ⟨b, ctx, mem, [], []⟩
    | BootState.CHECK_AUTORECRUIT =>
      if autorecruitSetup txt then
        ⟨{ b with state := TaskState.DONE },
          { ctx with in_kingdom_menu := true },
          mem.addEvent MemEvent.autorecruitEnabledLoaded,
          [Cmd.num 1, Cmd.num 0, Cmd.num 0],
          [LogEvent.autorecruitOff, LogEvent.bootCompleteLoad]⟩
      else if autorecruitOn txt then
        ⟨{ b with state := TaskState.DONE },
          { ctx with in_kingdom_menu := true },
          mem.addEvent MemEvent.autorecruitVerifiedOn,
          [Cmd.num 0, Cmd.num 0],
          [LogEvent.autorecruitAlreadyOn, LogEvent.bootCompleteLoad]⟩
      else
        ⟨{ b with state := TaskState.DONE },
          { ctx with in_kingdom_menu := true }, mem, [],
          [LogEvent.warnUnknownAutorecruit, LogEvent.bootCompleteLoad]⟩

/-- `SaveTask.feed` from `core_agent.py` lines 275-313: sync with the
memory request flag, self-reactivation, then the mini state machine. -/
def saveFeed (t : SaveTask) (ctx0 : AgentContext) (mem0 : MemoryManager)
    (txt : String) : Step SaveTask :=
  let ctx := if mem0.request_save then { ctx0 with needs_save := true } else ctx0
  let mem := if mem0.request_save then { mem0 with request_save := false } else mem0
  let react := t.state = TaskState.DONE ∧ ctx.needs_save = true
  let t1 : SaveTask :=
    if react then ⟨TaskState.ACTIVE, SaveState.WAIT⟩ else t
  let logs0 : List LogEvent := if react then [LogEvent.saveReactivated] else []
  if t1.state = TaskState.DONE then ⟨t1, ctx, mem, [], logs0⟩
  else
    match t1.s with
    | SaveState.WAIT =>
      if ctx.needs_save = true ∧ ctx.in_kingdom_menu = true then
        ⟨{ t1 with s := SaveState.EXTRAS }, ctx, mem, [Cmd.num 13],
          logs0 ++ [LogEvent.saveInitiating]⟩
      else ⟨t1, ctx, mem, [], logs0⟩
    | SaveState.EXTRAS =>
      if containsS ("Save Game") txt then
        ⟨{ t1 with s := SaveState.NAME }, ctx, mem, [Cmd.num 1], logs0⟩
      else ⟨t1, ctx, mem, [], logs0⟩
    | SaveState.NAME =>
      if containsS ("Save Name") txt then
        ⟨{ t1 with s := SaveState.CONFIRM }, ctx, mem,
          [Cmd.text ctx.save_name true], logs0⟩
      else ⟨t1, ctx, mem, [], logs0⟩
    | SaveState.CONFIRM =>
      if pressAnyKey txt then
        ⟨{ t1 with state := TaskState.DONE },
          { ctx with needs_save := false },
          mem.addEvent (MemEvent.gameSaved ctx.save_name),
          [Cmd.key ' ', Cmd.num 0], logs0 ++ [LogEvent.saveComplete]⟩
      else ⟨t1, ctx, mem, [], logs0⟩

/-- `SaveTask.reset`. -/
def saveReset : SaveTask := ⟨TaskState.ACTIVE, SaveState.WAIT⟩

/-- `ArenaTask.feed` from `core_agent.py` lines 335-369.  Note that the
source computes the "first line" with `txt.split('\\n', 1)[0]`, i.e. a split
on the literal two-character sequence backslash `n`. -/
def arenaFeed (t : ArenaTask) (ctx : AgentContext) (mem : MemoryManager)
    (txt : String) : Step ArenaTask :=
  if t.state = TaskState.DONE then ⟨t, ctx, mem, [], []⟩
  else
    match t.s with
    | ArenaState.WAITING_FOR_FIGHT =>
      if arenaFightStart (String.mk (splitBN txt.data)) then
        ⟨⟨TaskState.ACTIVE, ArenaState.FIGHTING⟩,
          { ctx with in_arena_fight := true }, mem,
          [Cmd.key ' '], [LogEvent.arenaFightDetected]⟩
      else ⟨t, ctx, mem, [], []⟩
    | ArenaState.FIGHTING =>
      if pressAnyKey txt then
        if kingdomMenu txt then
          ⟨⟨TaskState.DONE, ArenaState.FIGHT_OVER⟩,
            { ctx with in_arena_fight := false }, mem,
            [Cmd.key ' '], [LogEvent.arenaFightFinished]⟩
        else ⟨t, ctx, mem, [Cmd.key ' '], []⟩
      else if kingdomMenu txt then
        ⟨⟨TaskState.DONE, ArenaState.FIGHT_OVER⟩,
          { ctx with in_arena_fight := false }, mem,
          [], [LogEvent.warnArenaUnexpectedMenu]⟩
      else ⟨t, ctx, mem, [], []⟩
    | ArenaState.FIGHT_OVER => ⟨t, ctx, mem, [], []⟩

/-- `ArenaTask.reset` (task-state part; the context flag and log line are
applied at the call site in the scheduler model). -/
def arenaReset : ArenaTask := ⟨TaskState.WAITING, ArenaState.WAITING_FOR_FIGHT⟩

/-- `CoreAgent` state: the shared context, the memory collaborator, and the
three tasks in priority order. -/
structure Agent where
  ctx : AgentContext
  mem : MemoryManager
  boot : BootTask
  save : SaveTask
  arena : ArenaTask
deriving DecidableEq

/-- The agent as built by `CoreAgent.__init__` on a given memory state. -/
def Agent.init (name : String) (mem : MemoryManager) : Agent :=
  ⟨AgentContext.fresh name, mem,
    ⟨TaskState.ACTIVE, BootState.START⟩,
    ⟨TaskState.ACTIVE, SaveState.WAIT⟩,
    ⟨TaskState.WAITING, ArenaState.WAITING_FOR_FIGHT⟩⟩

/-- Result of one `CoreAgent.feed` call: the next agent state, the commands
and log lines emitted during the call, and instrumentation flags recording
which tasks had their `feed` invoked with the snapshot. -/
structure AgentStep where
  a : Agent
  cmds : List Cmd
  logs : List LogEvent
  fedBoot : Bool
  fedSave : Bool
  fedArena : Bool
deriving DecidableEq

/-- The context and kingdom-edge log after step 1 of `CoreAgent.feed`
(lines 396-402): update `in_kingdom_menu` on an edge, logging the edge
unless `in_arena_fight` is set. -/
def kingdomUpdate (ctx : AgentContext) (buf : String) :
    AgentContext × List LogEvent :=
  let inMenu := kingdomMenu buf
  if inMenu ≠ ctx.in_kingdom_menu then
    ({ ctx with in_kingdom_menu := inMenu },
      if ({ ctx with in_kingdom_menu := inMenu } : AgentContext).in_arena_fight
      then []
      else [if inMenu then LogEvent.enteredKingdomMenu
            else LogEvent.exitedKingdomMenu])
  else (ctx, [])

/-- SaveTask after the re-arm check of `CoreAgent.feed` (lines 406-408). -/
def saveAfterRearm (s : SaveTask) (ctx : AgentContext) : SaveTask :=
  if s.state = TaskState.DONE ∧ ctx.needs_save = true then saveReset else s

/-- ArenaTask, context and reset log after the re-arm check of
`CoreAgent.feed` (lines 411-413); `ArenaTask.reset` clears
`in_arena_fight` and logs. -/
def arenaAfterRearm (t : ArenaTask) (ctx : AgentContext) :
    ArenaTask × AgentContext × List LogEvent :=
  if t.state = TaskState.DONE then
    (arenaReset, { ctx with in_arena_fight := false }, [LogEvent.arenaReset])
  else (t, ctx, [])

/-- `CoreAgent.feed` from `core_agent.py` lines 395-437: kingdom-menu edge
update, task re-arm logic, then priority dispatch.  Note that feeding
SaveTask does not set `processed`, so ArenaTask may also be fed in the same
call. -/
def agentFeed (a : Agent) (buf : String) : AgentStep :=
  let ku := kingdomUpdate a.ctx buf
  let ctx1 := ku.1
  let save1 := saveAfterRearm a.save ctx1
  let ar := arenaAfterRearm a.arena ctx1
  let arena1 := ar.1
  let ctx2 := ar.2.1
  if a.boot.state = TaskState.ACTIVE then
    let r := bootFeed a.boot ctx2 a.mem buf
    ⟨⟨r.ctx, r.mem, r.t, save1, arena1⟩, r.cmds,
      ku.2 ++ ar.2.2 ++ r.logs, true, false, false⟩
  else
    let fs := save1.state = TaskState.ACTIVE ∧ ctx2.needs_save = true
    let rs := if fs then saveFeed save1 ctx2 a.mem buf
              else ⟨save1, ctx2, a.mem, [], []⟩
    if arena1.state = TaskState.WAITING ∨ arena1.state = TaskState.ACTIVE then
      let ra := arenaFeed arena1 rs.ctx rs.mem buf
      ⟨⟨ra.ctx, ra.mem, a.boot, rs.t, ra.t⟩, rs.cmds ++ ra.cmds,
        ku.2 ++ ar.2.2 ++ rs.logs ++ ra.logs, false, decide fs, true⟩
    else
      ⟨⟨rs.ctx, rs.mem, a.boot, rs.t, arena1⟩, rs.cmds,
        ku.2 ++ ar.2.2 ++ rs.logs, false, decide fs, false⟩

/-- Iterated `CoreAgent.feed` over a list of snapshots. -/
def agentRun (a : Agent) : List String → Agent
  | [] => a
  | b :: bs => agentRun (agentFeed a b).a bs

/-- `CoreAgent.ready_for_llm` (lines 439-446). -/
def readyForLLM (a : Agent) : Bool :=
  decide (a.boot.state = TaskState.DONE) && !a.ctx.in_arena_fight

/-- The text classifier predicates consulted by the boot handler of each
boot FSM state (read off the handlers of `BootTask`). -/
def bootGuard : BootState → String → Bool
  | BootState.START, txt => mainMenu txt
  | BootState.LOAD_MENU, txt => loadMenu txt
  | BootState.HANDLE_LOAD_EXIT_ERROR, txt => pressAnyKey txt
  | BootState.WAIT_FOR_MAIN_MENU_AFTER_ERROR, txt => mainMenu txt
  | BootState.ORIGIN, txt => pressAnyKey txt
  | BootState.CAPTURE_CONDITIONS, txt => pressAnyKey txt
  | BootState.SKIP_CEREMONY, txt =>
      containsL ("crowning ceremony").data (lowerL txt.data)
  | BootState.SKIP_CROLL, txt => containsL ("old croll").data (lowerL txt.data)
  | BootState.SKIP_WAIT, txt => pressAnyKey txt
  | BootState.READY, txt => kingdomMenu txt
  | BootState.CHECK_AUTORECRUIT, txt => autorecruitSetup txt || autorecruitOn txt

/-- The text classifier predicates consulted by `SaveTask.feed` in each save
FSM state (the WAIT state consults no text classifier, only context flags). -/
def saveGuard : SaveState → String → Bool
  | SaveState.WAIT, _ => false
  | SaveState.EXTRAS, txt => containsS ("Save Game") txt
  | SaveState.NAME, txt => containsS ("Save Name") txt
  | SaveState.CONFIRM, txt => pressAnyKey txt

/-- The text classifier predicates consulted by `ArenaTask.feed` in each
arena FSM state. -/
def arenaGuard : ArenaState → String → Bool
  | ArenaState.WAITING_FOR_FIGHT, txt =>
      arenaFightStart (String.mk (splitBN txt.data))
  | ArenaState.FIGHTING, txt => pressAnyKey txt || kingdomMenu txt
  | ArenaState.FIGHT_OVER, _ => false

/-- Number of occurrences of a log event in an emitted log list. -/
def countE (e : LogEvent) : List LogEvent → Nat
  | [] => 0
  | x :: xs => (if x = e then 1 else 0) + countE e xs

end Warsim

namespace Warsim

/-- C1: `ready_for_llm` is true iff BootTask run-state is Done and the
context flag `in_arena_fight` is false; with BootTask Done, rewriting
`in_arena_fight` alone flips the predicate on the next evaluation, with no
snapshot fed in between. -/
theorem C1_readiness (a : Agent) :
    (readyForLLM a = true ↔
      (a.boot.state = TaskState.DONE ∧ a.ctx.in_arena_fight = false)) ∧
    (a.boot.state = TaskState.DONE → ∀ b : Bool,
      readyForLLM { a with ctx := { a.ctx with in_arena_fight := b } } = !b) := by
  constructor
  · simp [readyForLLM]
  · intro h b
    simp [readyForLLM, h]

/-- Witness for C1 at a concrete agent with BootTask Done and the arena
flag set: the readiness predicate evaluates to false. -/
theorem C1_readiness_witness :
    readyForLLM
      { Agent.init ("LLMSave") ⟨false, []⟩ with
        boot := ⟨TaskState.DONE, BootState.READY⟩,
        ctx := { (Agent.init ("LLMSave") ⟨false, []⟩).ctx with
                  in_arena_fight := true } } = !true :=
  (C1_readiness
    { Agent.init ("LLMSave") ⟨false, []⟩ with
      boot := ⟨TaskState.DONE, BootState.READY⟩ }).2 (by decide) true

/-- C7: in sub-state FIGHTING, `ArenaTask.feed` branches three ways: both
press-any-key and kingdom-menu present → one final dismiss key,
`in_arena_fight` cleared, FIGHT_OVER, Done; press-any-key only → one
dismiss key and no other change; kingdom-menu only → a warning log, no key,
`in_arena_fight` cleared, FIGHT_OVER, Done. -/
theorem C7_arena_fighting_branches (ctx : AgentContext) (mem : MemoryManager)
    (txt : String) :
    (pressAnyKey txt = true → kingdomMenu txt = true →
      arenaFeed ⟨TaskState.ACTIVE, ArenaState.FIGHTING⟩ ctx mem txt =
        ⟨⟨TaskState.DONE, ArenaState.FIGHT_OVER⟩,
          { ctx with in_arena_fight := false }, mem,
          [Cmd.key ' '], [LogEvent.arenaFightFinished]⟩) ∧
    (pressAnyKey txt = true → kingdomMenu txt = false →
      arenaFeed ⟨TaskState.ACTIVE, ArenaState.FIGHTING⟩ ctx mem txt =
        ⟨⟨TaskState.ACTIVE, ArenaState.FIGHTING⟩, ctx, mem,
          [Cmd.key ' '], []⟩) ∧
    (pressAnyKey txt = false → kingdomMenu txt = true →
      arenaFeed ⟨TaskState.ACTIVE, ArenaState.FIGHTING⟩ ctx mem txt =
        ⟨⟨TaskState.DONE, ArenaState.FIGHT_OVER⟩,
          { ctx with in_arena_fight := false }, mem,
          [], [LogEvent.warnArenaUnexpectedMenu]⟩) := by
  refine ⟨?_, ?_, ?_⟩ <;> intro h1 h2 <;> simp [arenaFeed, h1, h2]

/-- Witness for C7 at a concrete fight-end snapshot containing both the
press-any-key prompt and the kingdom-menu marker. -/
theorem C7_arena_fighting_branches_witness :
    arenaFeed ⟨TaskState.ACTIVE, ArenaState.FIGHTING⟩
        (AgentContext.fresh ("LLMSave")) ⟨false, []⟩
        ("Press any key to continue KINGDOM MENU") =
      ⟨⟨TaskState.DONE, ArenaState.FIGHT_OVER⟩,
        { AgentContext.fresh ("LLMSave") with in_arena_fight := false },
        ⟨false, []⟩, [Cmd.key ' '], [LogEvent.arenaFightFinished]⟩ :=
  (C7_arena_fighting_branches (AgentContext.fresh ("LLMSave")) ⟨false, []⟩
    ("Press any key to continue KINGDOM MENU")).1 (by decide) (by decide)

/-- C6 fails on the code: the source computes the "first line" with
`txt.split('\\n', 1)[0]`, splitting on the literal two-character sequence
backslash `n` rather than on the newline character, so for a snapshot whose
real first line is empty and whose fight-start text sits on the second
line, `ArenaTask` transitions to FIGHTING even though the first line does
not match the fight-start pattern. -/
theorem C6_first_line_divergence :
    (String.mk (firstLine ("\n  a vs. b").data) = ("") ∧
      arenaFightStart (String.mk (firstLine ("\n  a vs. b").data)) = false) ∧
    arenaFeed ⟨TaskState.WAITING, ArenaState.WAITING_FOR_FIGHT⟩
        (AgentContext.fresh ("LLMSave")) ⟨false, []⟩ ("\n  a vs. b") =
      ⟨⟨TaskState.ACTIVE, ArenaState.FIGHTING⟩,
        { AgentContext.fresh ("LLMSave") with in_arena_fight := true },
        ⟨false, []⟩, [Cmd.key ' '], [LogEvent.arenaFightDetected]⟩ := by
  decide

/-- Iterated `SaveTask.feed` over a list of snapshots, concatenating the
emitted commands and logs. -/
def saveRun (t : SaveTask) (ctx : AgentContext) (mem : MemoryManager) :
    List String → Step SaveTask
  | [] => ⟨t, ctx, mem, [], []⟩
  | x :: xs =>
    let r := saveFeed t ctx mem x
    let rest := saveRun r.t r.ctx r.mem xs
    ⟨rest.t, rest.ctx, rest.mem, r.cmds ++ rest.cmds, r.logs ++ rest.logs⟩

/-- C4: from WAIT with `needs_save` and `in_kingdom_menu` set (request flag
clear), feeding [any, "Save Game", "Save Name", press-any-key] records
exactly one game-saved event, clears `needs_save`, and leaves the run-state
Done; afterwards any feed while Done with `needs_save` clear is a strict
no-op, and once `needs_save` is set again the next feed re-arms the task
through WAIT (continuing to EXTRAS in the same call when the kingdom menu
is up). -/
theorem C4_save_lifecycle (ctx : AgentContext) (mem : MemoryManager)
    (t1 t2 t3 t4 : String)
    (hrq : mem.request_save = false)
    (hns : ctx.needs_save = true) (hk : ctx.in_kingdom_menu = true)
    (h2 : containsS ("Save Game") t2 = true)
    (h3 : containsS ("Save Name") t3 = true)
    (h4 : pressAnyKey t4 = true) :
    saveRun ⟨TaskState.ACTIVE, SaveState.WAIT⟩ ctx mem [t1, t2, t3, t4] =
      ⟨⟨TaskState.DONE, SaveState.CONFIRM⟩,
        { ctx with needs_save := false },
        { mem with events := mem.events ++ [MemEvent.gameSaved ctx.save_name] },
        [Cmd.num 13, Cmd.num 1, Cmd.text ctx.save_name true,
          Cmd.key ' ', Cmd.num 0],
        [LogEvent.saveInitiating, LogEvent.saveComplete]⟩ ∧
    (∀ (s : SaveState) (c : AgentContext) (m : MemoryManager) (u : String),
      m.request_save = false → c.needs_save = false →
      saveFeed ⟨TaskState.DONE, s⟩ c m u = ⟨⟨TaskState.DONE, s⟩, c, m, [], []⟩) ∧
    (∀ (s : SaveState) (c : AgentContext) (m : MemoryManager) (u : String),
      m.request_save = false → c.needs_save = true →
      (saveFeed ⟨TaskState.DONE, s⟩ c m u).t =
        ⟨TaskState.ACTIVE,
          if c.in_kingdom_menu then SaveState.EXTRAS else SaveState.WAIT⟩) := by
  refine ⟨?_, ?_, ?_⟩
  · simp [saveRun, saveFeed, hrq, hns, hk, h2, h3, h4, MemoryManager.addEvent]
  · intro s c m u hm hc
    simp [saveFeed, hm, hc]
  · intro s c m u hm hc
    by_cases hkk : c.in_kingdom_menu <;> simp [saveFeed, hm, hc, hkk]

/-- Witness for C4 at concrete snapshots: the save pipeline ends Done with
`needs_save` cleared and one game-saved event recorded. -/
theorem C4_save_lifecycle_witness :
    saveRun ⟨TaskState.ACTIVE, SaveState.WAIT⟩
        { AgentContext.fresh ("LLMSave") with
          needs_save := true, in_kingdom_menu := true } ⟨false, []⟩
        [("Extras"), ("Save Game"), ("Save Name"),
          ("Press any key to continue")] =
      ⟨⟨TaskState.DONE, SaveState.CONFIRM⟩,
        { { AgentContext.fresh ("LLMSave") with
            needs_save := true, in_kingdom_menu := true } with
          needs_save := false },
        { (⟨false, []⟩ : MemoryManager) with
          events := [] ++ [MemEvent.gameSaved ("LLMSave")] },
        [Cmd.num 13, Cmd.num 1, Cmd.text ("LLMSave") true,
          Cmd.key ' ', Cmd.num 0],
        [LogEvent.saveInitiating, LogEvent.saveComplete]⟩ :=
  (C4_save_lifecycle
    { AgentContext.fresh ("LLMSave") with
      needs_save := true, in_kingdom_menu := true } ⟨false, []⟩
    ("Extras") ("Save Game") ("Save Name") ("Press any key to continue")
    (by decide) (by decide) (by decide) (by decide) (by decide)
    (by decide)).1

/-- Iterated `BootTask.feed` over a list of snapshots, concatenating the
emitted commands and logs. -/
def bootRun (b : BootTask) (ctx : AgentContext) (mem : MemoryManager) :
    List String → Step BootTask
  | [] => ⟨b, ctx, mem, [], []⟩
  | x :: xs =>
    let r := bootFeed b ctx mem x
    let rest := bootRun r.t r.ctx r.mem xs
    ⟨rest.t, rest.ctx, rest.mem, r.cmds ++ rest.cmds, r.logs ++ rest.logs⟩

theorem pressAnyKey_nonempty (u : String) (h : pressAnyKey u = true) :
    u ≠ ("") := by
  intro he
  rw [he] at h
  exact absurd h (by decide)

/-- C8: feeding a fresh BootTask the ten-screen new-game sequence emits the
load-menu selection (menu number 2), the exit-load command (text "x"), the
quick-start selection (menu number 3) and the five-step auto-recruit enable
sequence in order; captures the two press-any-key snapshots verbatim (and
they are non-empty and distinct); and ends with `in_kingdom_menu`,
`needs_save` set and the task Done. -/
theorem C8_boot_new_game (name : String) (mem : MemoryManager)
    (t1 t2 t3 t4 t5 t6 t7 t8 t9 t10 : String)
    (h1 : mainMenu t1 = true)
    (h2 : loadMenu t2 = true) (h2n : containsCI name t2 = false)
    (h3 : pressAnyKey t3 = true)
    (h4 : mainMenu t4 = true)
    (h5 : pressAnyKey t5 = true)
    (h6 : pressAnyKey t6 = true)
    (h56 : t5 ≠ t6)
    (h7 : containsL ("crowning ceremony").data (lowerL t7.data) = true)
    (h8 : containsL ("old croll").data (lowerL t8.data) = true)
    (h9 : pressAnyKey t9 = true)
    (h10 : kingdomMenu t10 = true) :
    bootRun ⟨TaskState.ACTIVE, BootState.START⟩ (AgentContext.fresh name) mem
        [t1, t2, t3, t4, t5, t6, t7, t8, t9, t10] =
      ⟨⟨TaskState.DONE, BootState.READY⟩,
        ⟨name, false, true, true, false, t5, t6⟩,
        { mem with events := mem.events ++
            [MemEvent.quickStart, MemEvent.autorecruitEnabledNew] },
        [Cmd.num 2, Cmd.text ("x") true, Cmd.key ' ', Cmd.num 3, Cmd.key ' ',
          Cmd.key ' ', Cmd.num 2, Cmd.num 2, Cmd.key ' ',
          Cmd.num 1, Cmd.num 7, Cmd.num 1, Cmd.num 0, Cmd.num 0],
        [LogEvent.saveNotFound name, LogEvent.capturingOrigin,
          LogEvent.capturingConditions, LogEvent.enablingAutorecruit,
          LogEvent.requestingInitialSave, LogEvent.bootCompleteNew]⟩ ∧
    (bootRun ⟨TaskState.ACTIVE, BootState.START⟩ (AgentContext.fresh name) mem
        [t1, t2, t3, t4, t5, t6, t7, t8, t9, t10]).ctx.intro_origin_text ≠
      ("") ∧
    (bootRun ⟨TaskState.ACTIVE, BootState.START⟩ (AgentContext.fresh name) mem
        [t1, t2, t3, t4, t5, t6, t7, t8, t9, t10]).ctx.intro_conditions_text ≠
      ("") ∧
    (bootRun ⟨TaskState.ACTIVE, BootState.START⟩ (AgentContext.fresh name) mem
        [t1, t2, t3, t4, t5, t6, t7, t8, t9, t10]).ctx.intro_origin_text ≠
      (bootRun ⟨TaskState.ACTIVE, BootState.START⟩ (AgentContext.fresh name)
        mem [t1, t2, t3, t4, t5, t6, t7, t8, t9, t10]).ctx.intro_conditions_text := by
  have hrun : bootRun ⟨TaskState.ACTIVE, BootState.START⟩
      (AgentContext.fresh name) mem
      [t1, t2, t3, t4, t5, t6, t7, t8, t9, t10] =
      ⟨⟨TaskState.DONE, BootState.READY⟩,
        ⟨name, false, true, true, false, t5, t6⟩,
        { mem with events := mem.events ++
            [MemEvent.quickStart, MemEvent.autorecruitEnabledNew] },
        [Cmd.num 2, Cmd.text ("x") true, Cmd.key ' ', Cmd.num 3, Cmd.key ' ',
          Cmd.key ' ', Cmd.num 2, Cmd.num 2, Cmd.key ' ',
          Cmd.num 1, Cmd.num 7, Cmd.num 1, Cmd.num 0, Cmd.num 0],
        [LogEvent.saveNotFound name, LogEvent.capturingOrigin,
          LogEvent.capturingConditions, LogEvent.enablingAutorecruit,
          LogEvent.requestingInitialSave, LogEvent.bootCompleteNew]⟩ := by
    simp [bootRun, bootFeed, AgentContext.fresh, MemoryManager.addEvent,
      h1, h2, h2n, h3, h4, h5, h6, h7, h8, h9, h10]
  refine ⟨hrun, ?_, ?_, ?_⟩ <;> rw [hrun]
  · exact pressAnyKey_nonempty t5 h5
  · exact pressAnyKey_nonempty t6 h6
  · exact h56

/-- Witness for C8 at ten concrete snapshots. -/
theorem C8_boot_new_game_witness :
    bootRun ⟨TaskState.ACTIVE, BootState.START⟩
        (AgentContext.fresh ("LLMSave")) ⟨false, []⟩
        [("Welcome to Warsim 1) Start a New Game"),
          ("Savegames enter the name of the save file"),
          ("Press any key to continue"),
          ("Welcome to Warsim 1) Start a New Game"),
          ("Origin Press any key to continue"),
          ("Cond Press any key to continue"),
          ("crowning ceremony"), ("old croll"),
          ("Press any key to continue"), ("KINGDOM MENU")] =
      ⟨⟨TaskState.DONE, BootState.READY⟩,
        ⟨("LLMSave"), false, true, true, false,
          ("Origin Press any key to continue"),
          ("Cond Press any key to continue")⟩,
        { (⟨false, []⟩ : MemoryManager) with events := [] ++
            [MemEvent.quickStart, MemEvent.autorecruitEnabledNew] },
        [Cmd.num 2, Cmd.text ("x") true, Cmd.key ' ', Cmd.num 3, Cmd.key ' ',
          Cmd.key ' ', Cmd.num 2, Cmd.num 2, Cmd.key ' ',
          Cmd.num 1, Cmd.num 7, Cmd.num 1, Cmd.num 0, Cmd.num 0],
        [LogEvent.saveNotFound ("LLMSave"), LogEvent.capturingOrigin,
          LogEvent.capturingConditions, LogEvent.enablingAutorecruit,
          LogEvent.requestingInitialSave, LogEvent.bootCompleteNew]⟩ :=
  (C8_boot_new_game ("LLMSave") ⟨false, []⟩
    ("Welcome to Warsim 1) Start a New Game")
    ("Savegames enter the name of the save file")
    ("Press any key to continue")
    ("Welcome to Warsim 1) Start a New Game")
    ("Origin Press any key to continue")
    ("Cond Press any key to continue")
    ("crowning ceremony") ("old croll")
    ("Press any key to continue") ("KINGDOM MENU")
    (by decide) (by decide) (by decide) (by decide) (by decide) (by decide)
    (by decide) (by decide) (by decide) (by decide) (by decide) (by decide)).1

theorem kingdomUpdate_needs (ctx : AgentContext) (buf : String) :
    (kingdomUpdate ctx buf).1.needs_save = ctx.needs_save := by
  simp only [kingdomUpdate]; split <;> rfl

theorem arenaAfterRearm_needs (t : ArenaTask) (ctx : AgentContext) :
    (arenaAfterRearm t ctx).2.1.needs_save = ctx.needs_save := by
  simp only [arenaAfterRearm]; split <;> rfl

theorem arenaAfterRearm_fst (t : ArenaTask) (c c2 : AgentContext) :
    (arenaAfterRearm t c).1 = (arenaAfterRearm t c2).1 := by
  simp only [arenaAfterRearm]; split <;> rfl

theorem saveAfterRearm_congr (s : SaveTask) (c c2 : AgentContext)
    (h : c.needs_save = c2.needs_save) :
    saveAfterRearm s c = saveAfterRearm s c2 := by
  simp only [saveAfterRearm]; rw [h]

/-- C3, amended: if BootTask is Active it alone is fed.  Otherwise BootTask
is not fed, SaveTask is fed exactly when it is Active after re-arming and
`needs_save` holds, and ArenaTask is fed exactly when its post-re-arm state
is Waiting or Active — independently of whether SaveTask was fed, so
SaveTask and ArenaTask can both receive the same snapshot. -/
theorem C3_dispatch_amended (a : Agent) (buf : String) :
    (a.boot.state = TaskState.ACTIVE →
      (agentFeed a buf).fedBoot = true ∧ (agentFeed a buf).fedSave = false ∧
      (agentFeed a buf).fedArena = false) ∧
    (a.boot.state ≠ TaskState.ACTIVE →
      (agentFeed a buf).fedBoot = false ∧
      ((agentFeed a buf).fedSave = true ↔
        ((saveAfterRearm a.save a.ctx).state = TaskState.ACTIVE ∧
          a.ctx.needs_save = true)) ∧
      ((agentFeed a buf).fedArena = true ↔
        ((arenaAfterRearm a.arena a.ctx).1.state = TaskState.WAITING ∨
          (arenaAfterRearm a.arena a.ctx).1.state = TaskState.ACTIVE))) := by
  constructor
  · intro h; simp [agentFeed, h]
  · intro h
    have hku : (kingdomUpdate a.ctx buf).1.needs_save = a.ctx.needs_save :=
      kingdomUpdate_needs a.ctx buf
    have hsv : saveAfterRearm a.save (kingdomUpdate a.ctx buf).1 =
        saveAfterRearm a.save a.ctx :=
      saveAfterRearm_congr a.save _ _ (by rw [hku])
    have har : (arenaAfterRearm a.arena (kingdomUpdate a.ctx buf).1).1 =
        (arenaAfterRearm a.arena a.ctx).1 :=
      arenaAfterRearm_fst a.arena _ _
    have hne : (arenaAfterRearm a.arena
        (kingdomUpdate a.ctx buf).1).2.1.needs_save = a.ctx.needs_save := by
      rw [arenaAfterRearm_needs, hku]
    simp only [agentFeed, if_neg h]
    split
    · next h1 =>
      refine ⟨rfl, ?_, ?_⟩
      · rw [show (⟨_, _, _, false, _, true⟩ : AgentStep).fedSave = _ from rfl]
        rw [decide_eq_true_iff, hsv, hne]
      · simp only [har] at h1
        simp [h1]
    · next h2 =>
      refine ⟨rfl, ?_, ?_⟩
      · rw [show (⟨_, _, _, false, _, false⟩ : AgentStep).fedSave = _ from rfl]
        rw [decide_eq_true_iff, hsv, hne]
      · simp only [har] at h2
        simp [h2]

/-- Witness for C3 (amended) at a concrete agent with BootTask Done:
BootTask is not fed. -/
theorem C3_dispatch_amended_witness :
    (agentFeed
      { Agent.init ("LLMSave") ⟨false, []⟩ with
        boot := ⟨TaskState.DONE, BootState.READY⟩ } ("menu text")).fedBoot =
      false :=
  ((C3_dispatch_amended
    { Agent.init ("LLMSave") ⟨false, []⟩ with
      boot := ⟨TaskState.DONE, BootState.READY⟩ } ("menu text")).2
    (by decide)).1

/-- C3 fails as stated: with BootTask Done, SaveTask Active with a pending
save, and ArenaTask Waiting, one `CoreAgent.feed` call feeds *both*
SaveTask and ArenaTask with the same snapshot — feeding SaveTask does not
stop ArenaTask from also being fed in the same cycle. -/
theorem C3_counterexample :
    (agentFeed
      { Agent.init ("LLMSave") ⟨false, []⟩ with
        boot := ⟨TaskState.DONE, BootState.READY⟩,
        ctx := { AgentContext.fresh ("LLMSave") with needs_save := true } }
      ("")).fedSave = true ∧
    (agentFeed
      { Agent.init ("LLMSave") ⟨false, []⟩ with
        boot := ⟨TaskState.DONE, BootState.READY⟩,
        ctx := { AgentContext.fresh ("LLMSave") with needs_save := true } }
      ("")).fedArena = true := by
  decide

/-- C2, amended: `feed` with a snapshot matching no classifier predicate of
the current sub-state changes nothing and emits nothing, provided that
BootTask is not in CHECK_AUTORECRUIT (whose fallback branch acts on any
text), that the external request-save flag is clear, and that SaveTask is
neither in its reactivation condition (Done with `needs_save`) nor in WAIT
with its context-flag guard (`needs_save` and `in_kingdom_menu`) satisfied. -/
theorem C2_no_op_amended (b : BootTask) (sv : SaveTask) (ar : ArenaTask)
    (ctx : AgentContext) (mem : MemoryManager) (txt : String)
    (hb : bootGuard b.s txt = false) (hbc : b.s ≠ BootState.CHECK_AUTORECRUIT)
    (hrq : mem.request_save = false)
    (hreact : sv.state = TaskState.DONE → ctx.needs_save = false)
    (hg : saveGuard sv.s txt = false)
    (hwait : sv.s = SaveState.WAIT →
      ¬(ctx.needs_save = true ∧ ctx.in_kingdom_menu = true))
    (ha : arenaGuard ar.s txt = false) :
    bootFeed b ctx mem txt = ⟨b, ctx, mem, [], []⟩ ∧
    saveFeed sv ctx mem txt = ⟨sv, ctx, mem, [], []⟩ ∧
    arenaFeed ar ctx mem txt = ⟨ar, ctx, mem, [], []⟩ := by
  refine ⟨?_, ?_, ?_⟩
  · rcases b with ⟨bst, bs⟩
    rcases bst <;> cases bs <;> simp_all [bootFeed, bootGuard]
  · rcases sv with ⟨sst, ss⟩
    rcases sst <;> cases ss <;> simp_all [saveFeed, saveGuard]
  · rcases ar with ⟨ast, as2⟩
    rcases ast <;> cases as2 <;> simp_all [arenaFeed, arenaGuard]

/-- Witness for C2 (amended) at concrete task states and a snapshot
matching none of the relevant classifiers. -/
theorem C2_no_op_amended_witness :
    bootFeed ⟨TaskState.ACTIVE, BootState.START⟩
        (AgentContext.fresh ("LLMSave")) ⟨false, []⟩ ("hello") =
      ⟨⟨TaskState.ACTIVE, BootState.START⟩,
        AgentContext.fresh ("LLMSave"), ⟨false, []⟩, [], []⟩ ∧
    saveFeed ⟨TaskState.ACTIVE, SaveState.EXTRAS⟩
        (AgentContext.fresh ("LLMSave")) ⟨false, []⟩ ("hello") =
      ⟨⟨TaskState.ACTIVE, SaveState.EXTRAS⟩,
        AgentContext.fresh ("LLMSave"), ⟨false, []⟩, [], []⟩ ∧
    arenaFeed ⟨TaskState.WAITING, ArenaState.WAITING_FOR_FIGHT⟩
        (AgentContext.fresh ("LLMSave")) ⟨false, []⟩ ("hello") =
      ⟨⟨TaskState.WAITING, ArenaState.WAITING_FOR_FIGHT⟩,
        AgentContext.fresh ("LLMSave"), ⟨false, []⟩, [], []⟩ :=
  C2_no_op_amended ⟨TaskState.ACTIVE, BootState.START⟩
    ⟨TaskState.ACTIVE, SaveState.EXTRAS⟩
    ⟨TaskState.WAITING, ArenaState.WAITING_FOR_FIGHT⟩
    (AgentContext.fresh ("LLMSave")) ⟨false, []⟩ ("hello")
    (by decide) (by decide) (by decide) (by decide) (by decide) (by decide)
    (by decide)

theorem kingdomUpdate_loaded (ctx : AgentContext) (buf : String) :
    (kingdomUpdate ctx buf).1.loaded_save = ctx.loaded_save := by
  simp only [kingdomUpdate]; split <;> rfl

theorem arenaAfterRearm_loaded (t : ArenaTask) (ctx : AgentContext) :
    (arenaAfterRearm t ctx).2.1.loaded_save = ctx.loaded_save := by
  simp only [arenaAfterRearm]; split <;> rfl

theorem saveFeed_loaded (t : SaveTask) (ctx : AgentContext)
    (mem : MemoryManager) (txt : String) :
    (saveFeed t ctx mem txt).ctx.loaded_save = ctx.loaded_save := by
  rcases t with ⟨st, s⟩
  rcases st <;> cases s <;> simp [saveFeed] <;> split_ifs <;> rfl

theorem arenaFeed_loaded (t : ArenaTask) (ctx : AgentContext)
    (mem : MemoryManager) (txt : String) :
    (arenaFeed t ctx mem txt).ctx.loaded_save = ctx.loaded_save := by
  rcases t with ⟨st, s⟩
  rcases st <;> cases s <;> simp [arenaFeed] <;> split_ifs <;> rfl

theorem bootFeed_loaded (b : BootTask) (ctx : AgentContext)
    (mem : MemoryManager) (txt : String)
    (h1 : b.s ≠ BootState.START) (h2 : b.s ≠ BootState.LOAD_MENU) :
    (bootFeed b ctx mem txt).ctx.loaded_save = ctx.loaded_save := by
  rcases b with ⟨st, s⟩
  rcases st <;> cases s <;> simp_all [bootFeed] <;> split_ifs <;> simp_all

theorem bootFeed_stays (b : BootTask) (ctx : AgentContext)
    (mem : MemoryManager) (txt : String)
    (h1 : b.s ≠ BootState.START) (h2 : b.s ≠ BootState.LOAD_MENU) :
    (bootFeed b ctx mem txt).t.s ≠ BootState.START ∧
    (bootFeed b ctx mem txt).t.s ≠ BootState.LOAD_MENU := by
  rcases b with ⟨st, s⟩
  rcases st <;> cases s <;> simp_all [bootFeed] <;> split_ifs <;> simp

theorem C9_step (a : Agent) (buf : String)
    (h1 : a.boot.s ≠ BootState.START) (h2 : a.boot.s ≠ BootState.LOAD_MENU) :
    (agentFeed a buf).a.ctx.loaded_save = a.ctx.loaded_save ∧
    (agentFeed a buf).a.boot.s ≠ BootState.START ∧
    (agentFeed a buf).a.boot.s ≠ BootState.LOAD_MENU := by
  by_cases hb : a.boot.state = TaskState.ACTIVE
  · simp only [agentFeed, if_pos hb]
    refine ⟨?_, ?_⟩
    · rw [bootFeed_loaded _ _ _ _ h1 h2, arenaAfterRearm_loaded,
        kingdomUpdate_loaded]
    · exact bootFeed_stays _ _ _ _ h1 h2
  · simp only [agentFeed, if_neg hb]
    split
    · constructor
      · show (arenaFeed _ _ _ _).ctx.loaded_save = _
        rw [arenaFeed_loaded]
        split
        · rw [saveFeed_loaded, arenaAfterRearm_loaded, kingdomUpdate_loaded]
        · rw [arenaAfterRearm_loaded, kingdomUpdate_loaded]
      · exact ⟨h1, h2⟩
    · constructor
      · split
        · rw [saveFeed_loaded, arenaAfterRearm_loaded, kingdomUpdate_loaded]
        · rw [arenaAfterRearm_loaded, kingdomUpdate_loaded]
      · exact ⟨h1, h2⟩

/-- C9: once the boot FSM sub-state has left START and LOAD_MENU,
`loaded_save` is fixed: any sequence of Scheduler `feed` calls (including
the SaveTask/ArenaTask re-arm resets those calls perform) leaves it
unchanged, and the boot sub-state never returns to START or LOAD_MENU. -/
theorem C9_loaded_save_fixed (a : Agent) (bufs : List String)
    (h1 : a.boot.s ≠ BootState.START) (h2 : a.boot.s ≠ BootState.LOAD_MENU) :
    (agentRun a bufs).ctx.loaded_save = a.ctx.loaded_save ∧
    (agentRun a bufs).boot.s ≠ BootState.START ∧
    (agentRun a bufs).boot.s ≠ BootState.LOAD_MENU := by
  induction bufs generalizing a with
  | nil => exact ⟨rfl, h1, h2⟩
  | cons b bs ih =>
    have hs := C9_step a b h1 h2
    have ht := ih (agentFeed a b).a hs.2.1 hs.2.2
    exact ⟨ht.1.trans hs.1, ht.2.1, ht.2.2⟩

/-- Witness for C9: a loaded-save agent past the load menu keeps
`loaded_save` over a feed of a kingdom-menu snapshot. -/
theorem C9_loaded_save_fixed_witness :
    (agentRun
      { Agent.init ("LLMSave") ⟨false, []⟩ with
        boot := ⟨TaskState.ACTIVE, BootState.READY⟩,
        ctx := { AgentContext.fresh ("LLMSave") with loaded_save := true } }
      [("KINGDOM MENU")]).ctx.loaded_save =
    ({ Agent.init ("LLMSave") ⟨false, []⟩ with
        boot := ⟨TaskState.ACTIVE, BootState.READY⟩,
        ctx := { AgentContext.fresh ("LLMSave") with loaded_save := true } } :
      Agent).ctx.loaded_save :=
  (C9_loaded_save_fixed
    { Agent.init ("LLMSave") ⟨false, []⟩ with
      boot := ⟨TaskState.ACTIVE, BootState.READY⟩,
      ctx := { AgentContext.fresh ("LLMSave") with loaded_save := true } }
    [("KINGDOM MENU")] (by decide) (by decide)).1

/-- `true` when no `CoreAgent.feed` call of the run invokes
`SaveTask.feed`. -/
def noSaveFed (a : Agent) : List String → Bool
  | [] => true
  | b :: bs => !(agentFeed a b).fedSave && noSaveFed (agentFeed a b).a bs

theorem arenaFeed_mem (t : ArenaTask) (ctx : AgentContext)
    (mem : MemoryManager) (txt : String) :
    (arenaFeed t ctx mem txt).mem = mem := by
  rcases t with ⟨st, s⟩
  rcases st <;> cases s <;> simp [arenaFeed] <;> split_ifs <;> rfl

theorem arenaFeed_needs (t : ArenaTask) (ctx : AgentContext)
    (mem : MemoryManager) (txt : String) :
    (arenaFeed t ctx mem txt).ctx.needs_save = ctx.needs_save := by
  rcases t with ⟨st, s⟩
  rcases st <;> cases s <;> simp [arenaFeed] <;> split_ifs <;> rfl

theorem C5_step (a : Agent) (buf : String)
    (hB : a.boot.state = TaskState.DONE)
    (hS : a.save.state = TaskState.DONE)
    (hN : a.ctx.needs_save = false) :
    (agentFeed a buf).fedSave = false ∧
    (agentFeed a buf).a.boot.state = TaskState.DONE ∧
    (agentFeed a buf).a.save.state = TaskState.DONE ∧
    (agentFeed a buf).a.ctx.needs_save = false ∧
    (agentFeed a buf).a.mem.request_save = a.mem.request_save := by
  have hb : ¬ a.boot.state = TaskState.ACTIVE := by rw [hB]; simp
  have h1 : (kingdomUpdate a.ctx buf).1.needs_save = false := by
    rw [kingdomUpdate_needs, hN]
  have h2 : (arenaAfterRearm a.arena
      (kingdomUpdate a.ctx buf).1).2.1.needs_save = false := by
    rw [arenaAfterRearm_needs, h1]
  have hsv : saveAfterRearm a.save (kingdomUpdate a.ctx buf).1 = a.save := by
    simp [saveAfterRearm, h1]
  simp only [agentFeed, if_neg hb, hsv, hS, h2]
  split
  · simp [arenaFeed_mem, arenaFeed_needs, hB, hS, h2]
  · simp [hB, hS, h2]

/-- The reachability invariant behind C5: the boot run-state is Active or
Done, and SaveTask can only be Done once boot is Done (SaveTask is fed only
when BootTask is not Active). -/
def InvP (a : Agent) : Prop :=
  (a.boot.state = TaskState.ACTIVE ∨ a.boot.state = TaskState.DONE) ∧
  (a.save.state = TaskState.DONE → a.boot.state = TaskState.DONE)

theorem bootFeed_state (b : BootTask) (ctx : AgentContext)
    (mem : MemoryManager) (txt : String) :
    (bootFeed b ctx mem txt).t.state = b.state ∨
    (bootFeed b ctx mem txt).t.state = TaskState.DONE := by
  rcases b with ⟨st, s⟩
  rcases st <;> cases s <;> simp [bootFeed] <;> split_ifs <;> simp

theorem saveAfterRearm_state (s : SaveTask) (c : AgentContext) :
    (saveAfterRearm s c).state = s.state ∨
    (saveAfterRearm s c).state = TaskState.ACTIVE := by
  simp only [saveAfterRearm]
  split
  · right; rfl
  · left; rfl

theorem Inv_step (a : Agent) (buf : String) (h : InvP a) :
    InvP (agentFeed a buf).a := by
  by_cases hb : a.boot.state = TaskState.ACTIVE
  · have hsave : a.save.state ≠ TaskState.DONE := by
      intro hd
      rw [h.2 hd] at hb
      exact absurd hb (by simp)
    have hsv : (saveAfterRearm a.save (kingdomUpdate a.ctx buf).1).state ≠
        TaskState.DONE := by
      rcases saveAfterRearm_state a.save (kingdomUpdate a.ctx buf).1 with
        he | he <;> rw [he]
      · exact hsave
      · simp
    simp only [agentFeed, if_pos hb]
    constructor
    · rcases bootFeed_state a.boot
        (arenaAfterRearm a.arena (kingdomUpdate a.ctx buf).1).2.1 a.mem buf
        with he | he
      · left; rw [he]; exact hb
      · right; exact he
    · intro hd
      exact absurd hd hsv
  · have hB : a.boot.state = TaskState.DONE := by
      rcases h.1 with he | he
      · exact absurd he hb
      · exact he
    simp only [agentFeed, if_neg hb]
    split
    · exact ⟨Or.inr hB, fun _ => hB⟩
    · exact ⟨Or.inr hB, fun _ => hB⟩

theorem Inv_run (a : Agent) (bufs : List String) (h : InvP a) :
    InvP (agentRun a bufs) := by
  induction bufs generalizing a with
  | nil => exact h
  | cons b bs ih => exact ih _ (Inv_step a b h)

theorem C5_run (a : Agent) (bufs : List String)
    (hB : a.boot.state = TaskState.DONE)
    (hS : a.save.state = TaskState.DONE)
    (hN : a.ctx.needs_save = false) :
    noSaveFed a bufs = true ∧
    (agentRun a bufs).mem.request_save = a.mem.request_save ∧
    (agentRun a bufs).ctx.needs_save = false := by
  induction bufs generalizing a with
  | nil => exact ⟨rfl, rfl, hN⟩
  | cons b bs ih =>
    have hs := C5_step a b hB hS hN
    have ht := ih (agentFeed a b).a hs.2.1 hs.2.2.1 hs.2.2.2.1
    refine ⟨?_, ht.2.1.trans hs.2.2.2.2, ht.2.2⟩
    simp [noSaveFed, hs.1, ht.1]

/-- C5: from any reachable state with SaveTask Done and `needs_save` clear,
no further sequence of Scheduler `feed` calls ever invokes
`SaveTask.feed`, the memory flag `request_save` is never read or cleared
(its value is preserved for the rest of the run), and `needs_save` never
becomes true again. -/
theorem C5_save_never_refed (name : String) (mem0 : MemoryManager)
    (bufs0 : List String)
    (hS : (agentRun (Agent.init name mem0) bufs0).save.state = TaskState.DONE)
    (hN : (agentRun (Agent.init name mem0) bufs0).ctx.needs_save = false)
    (bufs : List String) :
    noSaveFed (agentRun (Agent.init name mem0) bufs0) bufs = true ∧
    (agentRun (agentRun (Agent.init name mem0) bufs0) bufs).mem.request_save =
      (agentRun (Agent.init name mem0) bufs0).mem.request_save ∧
    (agentRun (agentRun (Agent.init name mem0) bufs0) bufs).ctx.needs_save =
      false := by
  have hInv : InvP (agentRun (Agent.init name mem0) bufs0) :=
    Inv_run _ _ ⟨Or.inl rfl, by intro h; exact absurd h (by simp [Agent.init])⟩
  exact C5_run _ bufs (hInv.2 hS) hS hN

/-- The concrete snapshot sequence driving a fresh agent through the
new-game boot and one complete save, used to witness C5. -/
def c5Trace : List String :=
  [("Welcome to Warsim 1) Start a New Game"),
    ("Savegames enter the name of the save file"),
    ("Press any key to continue"),
    ("Welcome to Warsim 1) Start a New Game"),
    ("Origin Press any key to continue"),
    ("Cond Press any key to continue"),
    ("crowning ceremony"), ("old croll"),
    ("Press any key to continue"), ("KINGDOM MENU"),
    ("KINGDOM MENU"), ("Save Game"), ("Save Name"),
    ("Press any key to continue")]

/-- Witness for C5: after the concrete boot-and-save trace the state has
SaveTask Done with `needs_save` clear, and feeding one more snapshot never
invokes `SaveTask.feed`. -/
theorem C5_save_never_refed_witness :
    (agentRun (Agent.init ("LLMSave") ⟨false, []⟩) c5Trace).save.state =
      TaskState.DONE ∧
    (agentRun (Agent.init ("LLMSave") ⟨false, []⟩) c5Trace).ctx.needs_save =
      false ∧
    noSaveFed (agentRun (Agent.init ("LLMSave") ⟨false, []⟩) c5Trace)
      [("some later screen")] = true :=
  ⟨by decide, by decide,
    (C5_save_never_refed ("LLMSave") ⟨false, []⟩ c5Trace (by decide)
      (by decide) [("some later screen")]).1⟩

theorem countE_append (e : LogEvent) (l1 l2 : List LogEvent) :
    countE e (l1 ++ l2) = countE e l1 + countE e l2 := by
  induction l1 with
  | nil => simp [countE]
  | cons x xs ih => simp [countE, ih]; ring

theorem arenaAfterRearm_menu (t : ArenaTask) (ctx : AgentContext) :
    (arenaAfterRearm t ctx).2.1.in_kingdom_menu = ctx.in_kingdom_menu := by
  simp only [arenaAfterRearm]; split <;> rfl

theorem arenaAfterRearm_logs (e : LogEvent) (t : ArenaTask)
    (ctx : AgentContext) (h : e ≠ LogEvent.arenaReset) :
    countE e (arenaAfterRearm t ctx).2.2 = 0 := by
  simp only [arenaAfterRearm]; split <;> simp [countE]
  exact fun he => h he.symm

theorem saveFeed_menu (t : SaveTask) (ctx : AgentContext)
    (mem : MemoryManager) (txt : String) :
    (saveFeed t ctx mem txt).ctx.in_kingdom_menu = ctx.in_kingdom_menu := by
  rcases t with ⟨st, s⟩
  rcases st <;> cases s <;> simp [saveFeed] <;> split_ifs <;> rfl

theorem arenaFeed_menu (t : ArenaTask) (ctx : AgentContext)
    (mem : MemoryManager) (txt : String) :
    (arenaFeed t ctx mem txt).ctx.in_kingdom_menu = ctx.in_kingdom_menu := by
  rcases t with ⟨st, s⟩
  rcases st <;> cases s <;> simp [arenaFeed] <;> split_ifs <;> rfl

theorem bootFeed_menu (b : BootTask) (ctx : AgentContext)
    (mem : MemoryManager) (txt : String) (h : ctx.in_kingdom_menu = true) :
    (bootFeed b ctx mem txt).ctx.in_kingdom_menu = true := by
  rcases b with ⟨st, s⟩
  rcases st <;> cases s <;> simp_all [bootFeed] <;> split_ifs <;> simp_all

theorem bootFeed_logs_kingdom (b : BootTask) (ctx : AgentContext)
    (mem : MemoryManager) (txt : String) :
    countE LogEvent.enteredKingdomMenu (bootFeed b ctx mem txt).logs = 0 ∧
    countE LogEvent.exitedKingdomMenu (bootFeed b ctx mem txt).logs = 0 := by
  rcases b with ⟨st, s⟩
  rcases st <;> cases s <;> simp [bootFeed, countE] <;> split_ifs <;>
    simp [countE]

theorem saveFeed_logs_kingdom (t : SaveTask) (ctx : AgentContext)
    (mem : MemoryManager) (txt : String) :
    countE LogEvent.enteredKingdomMenu (saveFeed t ctx mem txt).logs = 0 ∧
    countE LogEvent.exitedKingdomMenu (saveFeed t ctx mem txt).logs = 0 := by
  rcases t with ⟨st, s⟩
  rcases st <;> cases s <;> simp [saveFeed, countE] <;> split_ifs <;>
    simp [countE]

theorem arenaFeed_logs_kingdom (t : ArenaTask) (ctx : AgentContext)
    (mem : MemoryManager) (txt : String) :
    countE LogEvent.enteredKingdomMenu (arenaFeed t ctx mem txt).logs = 0 ∧
    countE LogEvent.exitedKingdomMenu (arenaFeed t ctx mem txt).logs = 0 := by
  rcases t with ⟨st, s⟩
  rcases st <;> cases s <;> simp [arenaFeed, countE] <;> split_ifs <;>
    simp [countE]

theorem kingdomUpdate_flag (ctx : AgentContext) (buf : String) :
    (kingdomUpdate ctx buf).1.in_kingdom_menu = kingdomMenu buf := by
  simp only [kingdomUpdate]
  split
  · rfl
  · next h =>
    push_neg at h
    exact h.symm

theorem kingdomUpdate_logs_fight (ctx : AgentContext) (buf : String)
    (hF : ctx.in_arena_fight = true) :
    (kingdomUpdate ctx buf).2 = [] := by
  simp only [kingdomUpdate]
  split
  · simp [hF]
  · rfl

theorem agentFeed_fight_logs (a : Agent) (buf : String)
    (hF : a.ctx.in_arena_fight = true) :
    countE LogEvent.enteredKingdomMenu (agentFeed a buf).logs = 0 ∧
    countE LogEvent.exitedKingdomMenu (agentFeed a buf).logs = 0 := by
  have hku := kingdomUpdate_logs_fight a.ctx buf hF
  by_cases hb : a.boot.state = TaskState.ACTIVE
  · simp only [agentFeed, if_pos hb, hku]
    refine ⟨?_, ?_⟩ <;>
      simp [countE_append, countE, arenaAfterRearm_logs,
        (bootFeed_logs_kingdom a.boot (arenaAfterRearm a.arena
          (kingdomUpdate a.ctx buf).1).2.1 a.mem buf).1,
        (bootFeed_logs_kingdom a.boot (arenaAfterRearm a.arena
          (kingdomUpdate a.ctx buf).1).2.1 a.mem buf).2]
  · simp only [agentFeed, if_neg hb, hku]
    split
    · refine ⟨?_, ?_⟩
      · simp [countE_append, countE, arenaAfterRearm_logs,
          (arenaFeed_logs_kingdom _ _ _ buf).1]
        split
        · simp [(saveFeed_logs_kingdom _ _ _ buf).1, countE,
            (arenaFeed_logs_kingdom _ _ _ buf).1]
        · simp [countE, (arenaFeed_logs_kingdom _ _ _ buf).1]
      · simp [countE_append, countE, arenaAfterRearm_logs,
          (arenaFeed_logs_kingdom _ _ _ buf).2]
        split
        · simp [(saveFeed_logs_kingdom _ _ _ buf).2, countE,
            (arenaFeed_logs_kingdom _ _ _ buf).2]
        · simp [countE, (arenaFeed_logs_kingdom _ _ _ buf).2]
    · refine ⟨?_, ?_⟩
      · simp [countE_append, countE, arenaAfterRearm_logs]
        split
        · simp [(saveFeed_logs_kingdom _ _ _ buf).1, countE]
        · simp [countE]
      · simp [countE_append, countE, arenaAfterRearm_logs]
        split
        · simp [(saveFeed_logs_kingdom _ _ _ buf).2, countE]
        · simp [countE]

theorem agentFeed_flag (a : Agent) (buf : String) :
    (kingdomMenu buf = true → (agentFeed a buf).a.ctx.in_kingdom_menu = true) ∧
    (a.boot.state ≠ TaskState.ACTIVE →
      (agentFeed a buf).a.ctx.in_kingdom_menu = kingdomMenu buf) := by
  have hku : (kingdomUpdate a.ctx buf).1.in_kingdom_menu = kingdomMenu buf :=
    kingdomUpdate_flag a.ctx buf
  have hmenu2 : (arenaAfterRearm a.arena
      (kingdomUpdate a.ctx buf).1).2.1.in_kingdom_menu = kingdomMenu buf := by
    rw [arenaAfterRearm_menu, hku]
  constructor
  · intro ht
    have htrue : (arenaAfterRearm a.arena
        (kingdomUpdate a.ctx buf).1).2.1.in_kingdom_menu = true := by
      rw [hmenu2, ht]
    by_cases hb : a.boot.state = TaskState.ACTIVE
    · simp only [agentFeed, if_pos hb]
      exact bootFeed_menu _ _ _ _ htrue
    · simp only [agentFeed, if_neg hb]
      split
      · rw [arenaFeed_menu]
        split
        · rw [saveFeed_menu]
          exact htrue
        · exact htrue
      · split
        · rw [saveFeed_menu]
          exact htrue
        · exact htrue
  · intro hb
    simp only [agentFeed, if_neg hb]
    split
    · rw [arenaFeed_menu]
      split
      · rw [saveFeed_menu]
        exact hmenu2
      · exact hmenu2
    · split
      · rw [saveFeed_menu]
        exact hmenu2
      · exact hmenu2

/-- C10: kingdom-menu logging is edge-triggered — with the flag initially
clear, no fight, and no task consuming the snapshot, feeding the same
kingdom-menu snapshot twice emits exactly one kingdom-menu-entered log line
on the first feed and none on the second; and whenever `in_arena_fight` is
set, an edge transition in either direction still updates the
`in_kingdom_menu` flag (the update step records the new classification and
emits nothing, the feed call as a whole emits no kingdom-menu log line, an
entering edge leaves the flag set, and when BootTask is not fed the final
flag equals the new classification — covering the fight-end menu exit). -/
theorem C10_kingdom_edge_logging (a : Agent) (buf : String)
    (hB : a.boot.state = TaskState.DONE)
    (hN : a.ctx.needs_save = false)
    (hA : a.arena = ⟨TaskState.WAITING, ArenaState.WAITING_FOR_FIGHT⟩)
    (hK : a.ctx.in_kingdom_menu = false)
    (hF : a.ctx.in_arena_fight = false)
    (hbuf : kingdomMenu buf = true)
    (hfs : arenaFightStart (String.mk (splitBN buf.data)) = false) :
    (countE LogEvent.enteredKingdomMenu (agentFeed a buf).logs = 1 ∧
      countE LogEvent.enteredKingdomMenu
        (agentFeed (agentFeed a buf).a buf).logs = 0) ∧
    (∀ (a2 : Agent) (buf2 : String),
      a2.ctx.in_arena_fight = true →
      kingdomMenu buf2 ≠ a2.ctx.in_kingdom_menu →
      countE LogEvent.enteredKingdomMenu (agentFeed a2 buf2).logs = 0 ∧
      countE LogEvent.exitedKingdomMenu (agentFeed a2 buf2).logs = 0 ∧
      (kingdomUpdate a2.ctx buf2).1.in_kingdom_menu = kingdomMenu buf2 ∧
      (kingdomUpdate a2.ctx buf2).2 = [] ∧
      (kingdomMenu buf2 = true →
        (agentFeed a2 buf2).a.ctx.in_kingdom_menu = true) ∧
      (a2.boot.state ≠ TaskState.ACTIVE →
        (agentFeed a2 buf2).a.ctx.in_kingdom_menu = kingdomMenu buf2)) := by
  have hb : ¬ a.boot.state = TaskState.ACTIVE := by rw [hB]; simp
  refine ⟨⟨?_, ?_⟩, ?_⟩
  · simp [agentFeed, kingdomUpdate, saveAfterRearm, arenaAfterRearm,
      arenaFeed, hb, hN, hA, hK, hF, hbuf, hfs, countE]
  · simp [agentFeed, kingdomUpdate, saveAfterRearm, arenaAfterRearm,
      arenaFeed, hb, hN, hA, hK, hF, hbuf, hfs, countE]
  · intro a2 buf2 hF2 _hedge
    exact ⟨(agentFeed_fight_logs a2 buf2 hF2).1,
      (agentFeed_fight_logs a2 buf2 hF2).2,
      kingdomUpdate_flag a2.ctx buf2,
      kingdomUpdate_logs_fight a2.ctx buf2 hF2,
      (agentFeed_flag a2 buf2).1,
      (agentFeed_flag a2 buf2).2⟩

/-- Witness for C10: a concrete agent (boot Done, arena waiting, flags
clear) fed "KINGDOM MENU" twice logs one entered-kingdom-menu line, then
none; and a concrete mid-fight agent with the flag set, fed a non-menu
snapshot (an exit edge), emits no exited-kingdom-menu line while the flag
still drops to false. -/
theorem C10_kingdom_edge_logging_witness :
    countE LogEvent.enteredKingdomMenu
      (agentFeed
        { Agent.init ("LLMSave") ⟨false, []⟩ with
          boot := ⟨TaskState.DONE, BootState.READY⟩ } ("KINGDOM MENU")).logs =
      1 ∧
    countE LogEvent.enteredKingdomMenu
      (agentFeed
        (agentFeed
          { Agent.init ("LLMSave") ⟨false, []⟩ with
            boot := ⟨TaskState.DONE, BootState.READY⟩ } ("KINGDOM MENU")).a
        ("KINGDOM MENU")).logs = 0 ∧
    countE LogEvent.exitedKingdomMenu
      (agentFeed
        { Agent.init ("LLMSave") ⟨false, []⟩ with
          boot := ⟨TaskState.DONE, BootState.READY⟩,
          arena := ⟨TaskState.ACTIVE, ArenaState.FIGHTING⟩,
          ctx := { AgentContext.fresh ("LLMSave") with
                    in_arena_fight := true, in_kingdom_menu := true } }
        ("plain battle text")).logs = 0 ∧
    (agentFeed
      { Agent.init ("LLMSave") ⟨false, []⟩ with
        boot := ⟨TaskState.DONE, BootState.READY⟩,
        arena := ⟨TaskState.ACTIVE, ArenaState.FIGHTING⟩,
        ctx := { AgentContext.fresh ("LLMSave") with
                  in_arena_fight := true, in_kingdom_menu := true } }
      ("plain battle text")).a.ctx.in_kingdom_menu = false :=
  ⟨(C10_kingdom_edge_logging
      { Agent.init ("LLMSave") ⟨false, []⟩ with
        boot := ⟨TaskState.DONE, BootState.READY⟩ } ("KINGDOM MENU")
      (by decide) (by decide) (by decide) (by decide) (by decide) (by decide)
      (by decide)).1.1,
    (C10_kingdom_edge_logging
      { Agent.init ("LLMSave") ⟨false, []⟩ with
        boot := ⟨TaskState.DONE, BootState.READY⟩ } ("KINGDOM MENU")
      (by decide) (by decide) (by decide) (by decide) (by decide) (by decide)
      (by decide)).1.2,
    ((C10_kingdom_edge_logging
      { Agent.init ("LLMSave") ⟨false, []⟩ with
        boot := ⟨TaskState.DONE, BootState.READY⟩ } ("KINGDOM MENU")
      (by decide) (by decide) (by decide) (by decide) (by decide) (by decide)
      (by decide)).2
      { Agent.init ("LLMSave") ⟨false, []⟩ with
        boot := ⟨TaskState.DONE, BootState.READY⟩,
        arena := ⟨TaskState.ACTIVE, ArenaState.FIGHTING⟩,
        ctx := { AgentContext.fresh ("LLMSave") with
                  in_arena_fight := true, in_kingdom_menu := true } }
      ("plain battle text") (by decide) (by decide)).2.1,
    (((C10_kingdom_edge_logging
      { Agent.init ("LLMSave") ⟨false, []⟩ with
        boot := ⟨TaskState.DONE, BootState.READY⟩ } ("KINGDOM MENU")
      (by decide) (by decide) (by decide) (by decide) (by decide) (by decide)
      (by decide)).2
      { Agent.init ("LLMSave") ⟨false, []⟩ with
        boot := ⟨TaskState.DONE, BootState.READY⟩,
        arena := ⟨TaskState.ACTIVE, ArenaState.FIGHTING⟩,
        ctx := { AgentContext.fresh ("LLMSave") with
                  in_arena_fight := true, in_kingdom_menu := true } }
      ("plain battle text") (by decide) (by decide)).2.2.2.2.2
      (by decide)).trans (by decide)⟩

/-- C2 fails as stated: with BootTask in CHECK_AUTORECRUIT, a snapshot
matching neither auto-recruit classifier (here the empty snapshot) is not a
no-op — the fallback branch marks the task Done, sets `in_kingdom_menu`,
and logs. -/
theorem C2_counterexample :
    bootGuard BootState.CHECK_AUTORECRUIT ("") = false ∧
    (bootFeed ⟨TaskState.ACTIVE, BootState.CHECK_AUTORECRUIT⟩
        (AgentContext.fresh ("LLMSave")) ⟨false, []⟩ ("")).t.state =
      TaskState.DONE ∧
    (bootFeed ⟨TaskState.ACTIVE, BootState.CHECK_AUTORECRUIT⟩
        (AgentContext.fresh ("LLMSave")) ⟨false, []⟩ ("")).ctx.in_kingdom_menu =
      true ∧
    (AgentContext.fresh ("LLMSave")).in_kingdom_menu = false := by
  decide

end Warsim
